import Mathlib

/-!
Verification of the fused-reader crate (src/lib.rs): a cross-thread fuse
built on one shared cell of type Arc＜Mutex＜Result＜(), IoError＞＞＞.
The cell is modelled by its observable state: whether the mutex is
currently locked by a live guard, whether it is poisoned, and the contents
of the Result slot (none = Ok(()), some e = Err(e)).  Operations are pure
state-passing functions translated from the source.
-/

/-- Error kinds from std::io::ErrorKind; the crate itself constructs only
BrokenPipe, other kinds can flow through from the underlying stream. -/
inductive ErrorKind where
  | brokenPipe
  | other (tag : String)
deriving DecidableEq, Repr

/-- Model of std::io::Error: an error kind together with its message. -/
structure IoError where
  kind : ErrorKind
  msg : String
deriving DecidableEq, Repr

/-- Observable state of the shared cell Arc＜Mutex＜Result＜(), IoError＞＞＞:
locked = a guard currently holds the mutex; poisoned = a holder of the
mutex terminated by panic; slot = the stored Result (none for Ok(()),
some e for Err(e)). -/
structure Cell where
  locked : Bool
  poisoned : Bool
  slot : Option IoError
deriving DecidableEq, Repr

/-- The fuse constructor allocates the shared cell as Mutex::new(Ok(())):
unlocked, unpoisoned, empty error slot.  Both returned handles share this
one cell, so the cell state is the whole shared state of the pair. -/
def fuse : Cell := { locked := false, poisoned := false, slot := none }

/-- Status of the fuse, as returned by check_fuse. -/
inductive FuseStatus where
  | Unarmed
  | Armed
  | Blown (e : IoError)
  | Poisoned
deriving DecidableEq, Repr

/-- FusedReader::check_fuse.  try_lock on a held mutex yields WouldBlock
(Armed); an acquired poisoned mutex yields Poisoned; otherwise an error in
the slot is swapped out for Ok(()) and returned as Blown, and an empty
slot gives Unarmed.  Returns the status together with the cell state after
the call. -/
def FusedReader.check_fuse (c : Cell) : FuseStatus × Cell :=
  if c.locked then (FuseStatus.Armed, c)
  else if c.poisoned then (FuseStatus.Poisoned, c)
  else
    match c.slot with
    | some e => (FuseStatus.Blown e, { c with slot := none })
    | none => (FuseStatus.Unarmed, c)

/-- The fixed error fabricated by read when check_fuse reports Poisoned. -/
def FusedReader.poisonedReadError : IoError :=
  { kind := ErrorKind.brokenPipe, msg := "writer end dropped due to panic" }

/-- FusedReader::read.  The result of the underlying stream read is the
argument r (error, or number of bytes read).  Errors and nonzero byte
counts pass through unchanged; a zero-byte result triggers check_fuse and
is mapped per status. -/
def FusedReader.read (r : Except IoError Nat) (c : Cell) :
    Except IoError Nat × Cell :=
  match r with
  | .error e => (.error e, c)
  | .ok bytes =>
    if bytes = 0 then
      match FusedReader.check_fuse c with
      | (FuseStatus.Blown err, c2) => (.error err, c2)
      | (FuseStatus.Poisoned, c2) => (.error FusedReader.poisonedReadError, c2)
      | (_, c2) => (.ok bytes, c2)
    else (.ok bytes, c)

/-- The fixed error returned by arm when the mutex is poisoned. -/
def Fuse.armError : IoError :=
  { kind := ErrorKind.brokenPipe, msg := "reader end dropped due to panic" }

/-- Fuse::arm, applied once lock() has acquired the mutex (lock blocks
while another guard is held, so arm is only invoked on unlocked cells).
A poisoned mutex yields the fixed arm error; the guard hidden inside the
PoisonError is dropped at once by map_err, so the cell is unchanged.  On
success the cell is returned locked by the new guard, slot untouched. -/
def Fuse.arm (c : Cell) : Except IoError Cell :=
  if c.poisoned then .error Fuse.armError
  else .ok { c with locked := true }

/-- FuseGuard::blow: consumes the guard, writing Err(e) into the slot and
releasing the mutex. -/
def FuseGuard.blow (e : IoError) (c : Cell) : Cell :=
  { c with slot := some e, locked := false }

/-- Normal drop of the guard: the mutex is released, slot untouched. -/
def FuseGuard.dropNormal (c : Cell) : Cell :=
  { c with locked := false }

/-- Drop of the guard during a panic unwind: the mutex is released with
its poison flag set, slot untouched. -/
def FuseGuard.dropPanic (c : Cell) : Cell :=
  { c with locked := false, poisoned := true }

/-- One observable operation of either handle on the shared cell.  Guard
operations require a live guard, hence a locked cell; arm is invoked only
once lock() has acquired, hence on an unlocked cell. -/
inductive Step : Cell → Cell → Prop where
  | check (c : Cell) : Step c (FusedReader.check_fuse c).2
  | readStep (r : Except IoError Nat) (c : Cell) :
      Step c (FusedReader.read r c).2
  | armOk (c c2 : Cell) (hl : c.locked = false) (h : Fuse.arm c = .ok c2) :
      Step c c2
  | blowStep (e : IoError) (c : Cell) (h : c.locked = true) :
      Step c (FuseGuard.blow e c)
  | dropN (c : Cell) (h : c.locked = true) : Step c (FuseGuard.dropNormal c)
  | dropP (c : Cell) (h : c.locked = true) : Step c (FuseGuard.dropPanic c)

/-- Reachability by any finite sequence of operations. -/
def Reachable : Cell → Cell → Prop := Relation.ReflTransGen Step


/-- Claim C1: blow propagation.  If arm succeeds on the shared cell (taking
a guard) and the guard is consumed by blow with error E, then the next read
in which the underlying stream returns zero bytes yields exactly Err E:
the blown error overrides end-of-stream. -/
theorem blow_then_read_eof_returns_blown_error
    (c c1 : Cell) (E : IoError) (harm : Fuse.arm c = .ok c1) :
    (FusedReader.read (.ok 0) (FuseGuard.blow E c1)).1 = .error E := by
  obtain ⟨l, p, s⟩ := c
  cases p with
  | true => simp [Fuse.arm] at harm
  | false =>
    simp [Fuse.arm] at harm
    subst harm
    simp [FusedReader.read, FusedReader.check_fuse, FuseGuard.blow]

/-- Witness for C1 at the fresh cell with a concrete error. -/
theorem blow_then_read_eof_returns_blown_error_witness :
    (FusedReader.read (.ok 0)
      (FuseGuard.blow { kind := ErrorKind.brokenPipe, msg := "boom!" }
        { fuse with locked := true })).1 =
      .error { kind := ErrorKind.brokenPipe, msg := "boom!" } :=
  blow_then_read_eof_returns_blown_error fuse { fuse with locked := true }
    { kind := ErrorKind.brokenPipe, msg := "boom!" } rfl

/-- Claim C2: poison propagation at end-of-stream.  On a poisoned, unlocked
cell, a read in which the underlying stream returns zero bytes yields the
fixed broken-pipe (writer terminated abnormally) error instead of Ok 0. -/
theorem poisoned_read_eof_returns_broken_pipe
    (c : Cell) (hp : c.poisoned = true) (hl : c.locked = false) :
    FusedReader.read (.ok 0) c = (.error FusedReader.poisonedReadError, c) ∧
      FusedReader.poisonedReadError.kind = ErrorKind.brokenPipe := by
  constructor
  · simp [FusedReader.read, FusedReader.check_fuse, hp, hl]
  · rfl

/-- Witness for C2 at a concrete poisoned cell. -/
theorem poisoned_read_eof_returns_broken_pipe_witness :
    FusedReader.read (.ok 0) { fuse with poisoned := true } =
      (.error FusedReader.poisonedReadError, { fuse with poisoned := true }) ∧
      FusedReader.poisonedReadError.kind = ErrorKind.brokenPipe :=
  poisoned_read_eof_returns_broken_pipe { fuse with poisoned := true }
    rfl rfl

/-- Claim C3: non-EOF transparency.  When the underlying read returns an
error or a nonzero byte count, FusedReader read returns exactly that result
and leaves the cell untouched, whatever the fuse state is. -/
theorem read_non_eof_transparent (c : Cell) :
    (∀ e : IoError, FusedReader.read (.error e) c = (.error e, c)) ∧
      (∀ n : Nat, n ≠ 0 → FusedReader.read (.ok n) c = (.ok n, c)) := by
  constructor
  · intro e; rfl
  · intro n hn; simp [FusedReader.read, hn]

/-- Witness for C3 at a concrete cell, error and byte count. -/
theorem read_non_eof_transparent_witness :
    FusedReader.read (.error { kind := ErrorKind.other "io", msg := "bad" })
        { fuse with slot := some Fuse.armError } =
      (.error { kind := ErrorKind.other "io", msg := "bad" },
        { fuse with slot := some Fuse.armError }) ∧
      FusedReader.read (.ok 3) { fuse with slot := some Fuse.armError } =
        (.ok 3, { fuse with slot := some Fuse.armError }) :=
  ⟨(read_non_eof_transparent { fuse with slot := some Fuse.armError }).1
      { kind := ErrorKind.other "io", msg := "bad" },
    (read_non_eof_transparent { fuse with slot := some Fuse.armError }).2
      3 (by decide)⟩

/-- Claim C4: single delivery.  If check_fuse returns Blown e (draining the
slot), an immediately following check_fuse with no intervening blow returns
Unarmed; likewise after a fuse error delivered by a read at end-of-stream
of an unpoisoned cell, the next check_fuse returns Unarmed. -/
theorem blown_delivered_once (c c2 : Cell) :
    (∀ e : IoError, FusedReader.check_fuse c = (FuseStatus.Blown e, c2) →
      FusedReader.check_fuse c2 = (FuseStatus.Unarmed, c2)) ∧
      (∀ e : IoError, c.poisoned = false →
        FusedReader.read (.ok 0) c = (.error e, c2) →
        FusedReader.check_fuse c2 = (FuseStatus.Unarmed, c2)) := by
  obtain ⟨l, p, s⟩ := c
  constructor
  · intro e h
    cases l with
    | true => simp [FusedReader.check_fuse] at h
    | false =>
      cases p with
      | true => simp [FusedReader.check_fuse] at h
      | false =>
        cases s with
        | none => simp [FusedReader.check_fuse] at h
        | some e0 =>
          simp [FusedReader.check_fuse] at h
          obtain ⟨he, hc2⟩ := h
          subst hc2
          simp [FusedReader.check_fuse]
  · intro e hp h
    simp at hp
    subst hp
    cases l with
    | true => simp [FusedReader.read, FusedReader.check_fuse] at h
    | false =>
      cases s with
      | none => simp [FusedReader.read, FusedReader.check_fuse] at h
      | some e0 =>
        simp [FusedReader.read, FusedReader.check_fuse] at h
        obtain ⟨he, hc2⟩ := h
        subst hc2
        simp [FusedReader.check_fuse]

/-- Witness for C4 at a concrete blown cell. -/
theorem blown_delivered_once_witness :
    FusedReader.check_fuse
        { fuse with slot := some { kind := ErrorKind.brokenPipe, msg := "boom!" } } =
      (FuseStatus.Blown { kind := ErrorKind.brokenPipe, msg := "boom!" }, fuse) ∧
      FusedReader.check_fuse fuse = (FuseStatus.Unarmed, fuse) :=
  ⟨by decide,
    (blown_delivered_once
        { fuse with slot := some { kind := ErrorKind.brokenPipe, msg := "boom!" } }
        fuse).1
      { kind := ErrorKind.brokenPipe, msg := "boom!" } (by decide)⟩

/-- Claim C5: benign end-of-stream.  When the underlying stream returns
zero bytes and check_fuse yields Unarmed or Armed, read returns the
original Ok 0: end-of-stream stands, no error is injected, also in the
Armed case. -/
theorem read_eof_benign_when_unarmed_or_armed (c c2 : Cell)
    (h : FusedReader.check_fuse c = (FuseStatus.Unarmed, c2) ∨
      FusedReader.check_fuse c = (FuseStatus.Armed, c2)) :
    FusedReader.read (.ok 0) c = (.ok 0, c2) := by
  cases h with
  | inl h => simp [FusedReader.read, h]
  | inr h => simp [FusedReader.read, h]

/-- Witness for C5: an armed cell at end-of-stream. -/
theorem read_eof_benign_when_unarmed_or_armed_witness :
    FusedReader.read (.ok 0) { fuse with locked := true } =
      (.ok 0, { fuse with locked := true }) :=
  read_eof_benign_when_unarmed_or_armed { fuse with locked := true }
    { fuse with locked := true } (Or.inr (by decide))

/-- Claim C7: fresh-construction state.  The cell allocated by fuse holds
no recorded error, so before any arm, check_fuse reports Unarmed and a
read reaching end-of-stream returns Ok 0 with no error injected. -/
theorem fresh_fuse_unarmed_and_eof_ok :
    FusedReader.check_fuse fuse = (FuseStatus.Unarmed, fuse) ∧
      FusedReader.read (.ok 0) fuse = (.ok 0, fuse) :=
  ⟨rfl, rfl⟩

/-- Claim C6: arm failure on poison.  For the cell states on which arm
runs (mutex acquired, hence unlocked beforehand), arm returns the
reader-terminated broken-pipe error exactly when the mutex is poisoned;
otherwise it returns possession of the cell (the cell now locked by the
guard). -/
theorem arm_fails_iff_poisoned (c : Cell) (_hl : c.locked = false) :
    (Fuse.arm c = .error Fuse.armError ↔ c.poisoned = true) ∧
      Fuse.armError.kind = ErrorKind.brokenPipe ∧
      (c.poisoned = false → Fuse.arm c = .ok { c with locked := true }) := by
  refine ⟨?_, rfl, ?_⟩
  · constructor
    · intro h
      by_contra hp
      simp at hp
      simp [Fuse.arm, hp] at h
    · intro hp
      simp [Fuse.arm, hp]
  · intro hp
    simp [Fuse.arm, hp]

/-- Witness for C6 on a concrete poisoned cell. -/
theorem arm_fails_iff_poisoned_witness :
    (Fuse.arm { fuse with poisoned := true } = .error Fuse.armError ↔
      Cell.poisoned { fuse with poisoned := true } = true) ∧
      Fuse.armError.kind = ErrorKind.brokenPipe ∧
      (Cell.poisoned { fuse with poisoned := true } = false →
        Fuse.arm { fuse with poisoned := true } =
          .ok { { fuse with poisoned := true } with locked := true }) :=
  arm_fails_iff_poisoned { fuse with poisoned := true } rfl

/-- Claim C8: arm frame condition.  A successful arm returns the guard
without modifying the error slot: the returned cell still holds exactly
the slot contents the cell had before the call. -/
theorem arm_preserves_slot (c c2 : Cell) (h : Fuse.arm c = .ok c2) :
    c2.slot = c.slot := by
  obtain ⟨l, p, s⟩ := c
  cases p with
  | true => simp [Fuse.arm] at h
  | false =>
    simp [Fuse.arm] at h
    subst h
    rfl

/-- Witness for C8 on a cell holding an undrained recorded error. -/
theorem arm_preserves_slot_witness :
    Cell.slot
        { fuse with slot := some Fuse.armError, locked := true } =
      Cell.slot { fuse with slot := some Fuse.armError } :=
  arm_preserves_slot { fuse with slot := some Fuse.armError }
    { fuse with slot := some Fuse.armError, locked := true } rfl

/-- From a poisoned unlocked cell, every enabled operation leaves the cell
unchanged: check_fuse and read report poisoning without draining, arm
fails without retaining the lock, and no guard operation is enabled. -/
lemma step_from_poisoned_fixes (c c2 : Cell) (hp : c.poisoned = true)
    (hl : c.locked = false) (h : Step c c2) : c2 = c := by
  cases h with
  | check c => simp [FusedReader.check_fuse, hl, hp]
  | readStep r c =>
    cases r with
    | error e => rfl
    | ok n =>
      by_cases hn : n = 0
      · subst hn
        simp [FusedReader.read, FusedReader.check_fuse, hl, hp]
      · simp [FusedReader.read, hn]
  | armOk c c2 hl2 h => simp [Fuse.arm, hp] at h
  | blowStep e c h => simp [hl] at h
  | dropN c h => simp [hl] at h
  | dropP c h => simp [hl] at h

/-- A poisoned unlocked cell is a fixed point of the whole operation set:
anything reachable from it is it. -/
lemma reachable_from_poisoned_eq (c0 c : Cell) (hp : c0.poisoned = true)
    (hl : c0.locked = false) (hr : Relation.ReflTransGen Step c0 c) :
    c = c0 := by
  induction hr with
  | refl => rfl
  | tail hab hbc ih =>
    subst ih
    exact step_from_poisoned_fixes _ _ hp hl hbc

/-- Claim C9: poison is permanent and sticky.  In every state reachable
from a poisoned (guard already dropped by panic, hence unlocked) cell, the
cell is still poisoned, check_fuse returns Poisoned, a read at
end-of-stream returns the fixed broken-pipe error, and arm fails: no
operation of the pair restores the fuse to a usable state. -/
theorem poison_is_sticky (c0 c : Cell) (hp : c0.poisoned = true)
    (hl : c0.locked = false) (hr : Reachable c0 c) :
    c.poisoned = true ∧
      FusedReader.check_fuse c = (FuseStatus.Poisoned, c) ∧
      (FusedReader.read (.ok 0) c).1 = .error FusedReader.poisonedReadError ∧
      Fuse.arm c = .error Fuse.armError := by
  have hc : c = c0 := reachable_from_poisoned_eq c0 c hp hl hr
  subst hc
  refine ⟨hp, ?_, ?_, ?_⟩
  · simp [FusedReader.check_fuse, hl, hp]
  · simp [FusedReader.read, FusedReader.check_fuse, hl, hp]
  · simp [Fuse.arm, hp]

/-- Witness for C9: the cell right after a panic drop of the guard. -/
theorem poison_is_sticky_witness :
    Cell.poisoned { fuse with poisoned := true } = true ∧
      FusedReader.check_fuse { fuse with poisoned := true } =
        (FuseStatus.Poisoned, { fuse with poisoned := true }) ∧
      (FusedReader.read (.ok 0) { fuse with poisoned := true }).1 =
        .error FusedReader.poisonedReadError ∧
      Fuse.arm { fuse with poisoned := true } = .error Fuse.armError :=
  poison_is_sticky { fuse with poisoned := true }
    { fuse with poisoned := true } rfl rfl Relation.ReflTransGen.refl

/-- Claim C10: poison takes precedence over a recorded blown error.  If
the slot holds an undrained error e when the mutex is poisoned, then in
every reachable state check_fuse returns Poisoned and never Blown, a read
at end-of-stream returns the fixed poisoned error (not e), and the slot is
never drained: the recorded error is never delivered. -/
theorem poison_shadows_blown_error (c0 c : Cell) (e : IoError)
    (hp : c0.poisoned = true) (hl : c0.locked = false)
    (hs : c0.slot = some e) (hr : Reachable c0 c) :
    (FusedReader.check_fuse c).1 = FuseStatus.Poisoned ∧
      (∀ e2 : IoError, (FusedReader.check_fuse c).1 ≠ FuseStatus.Blown e2) ∧
      (FusedReader.read (.ok 0) c).1 = .error FusedReader.poisonedReadError ∧
      c.slot = some e := by
  have hc : c = c0 := reachable_from_poisoned_eq c0 c hp hl hr
  subst hc
  have hcf : (FusedReader.check_fuse c).1 = FuseStatus.Poisoned := by
    simp [FusedReader.check_fuse, hl, hp]
  refine ⟨hcf, ?_, ?_, hs⟩
  · intro e2
    rw [hcf]
    intro hco
    cases hco
  · simp [FusedReader.read, FusedReader.check_fuse, hl, hp]

/-- Witness for C10: a poisoned cell still holding an undrained error. -/
theorem poison_shadows_blown_error_witness :
    (FusedReader.check_fuse
        { fuse with poisoned := true, slot := some Fuse.armError }).1 =
      FuseStatus.Poisoned ∧
      (∀ e2 : IoError,
        (FusedReader.check_fuse
            { fuse with poisoned := true, slot := some Fuse.armError }).1 ≠
          FuseStatus.Blown e2) ∧
      (FusedReader.read (.ok 0)
          { fuse with poisoned := true, slot := some Fuse.armError }).1 =
        .error FusedReader.poisonedReadError ∧
      Cell.slot { fuse with poisoned := true, slot := some Fuse.armError } =
        some Fuse.armError :=
  poison_shadows_blown_error
    { fuse with poisoned := true, slot := some Fuse.armError }
    { fuse with poisoned := true, slot := some Fuse.armError }
    Fuse.armError rfl rfl rfl Relation.ReflTransGen.refl
